import Mathlib

/-
  A shallow embedding of the JOA (MuniRPC v2) JavaScript client:
  header construction, message queue management, payload composition and
  the inlined md5 digest, together with theorems about their behaviour.
-/

set_option maxRecDepth 8000000

namespace JOA

/-! ## The inlined md5 primitive (`JOA.md5`)

The JavaScript source manipulates 32-bit integer bit patterns; here every
register is a natural number below 2^32 and overflow is explicit.  `K` in the
source implements 32-bit wrap-around addition through sign-bit bookkeeping
(JavaScript bitwise operators work on 32-bit words); its unsigned meaning is
addition modulo 2^32, which is how it is rendered here. -/

namespace MD5

def mask32 (x : Nat) : Nat := x % 4294967296

/-- `K(G,k)`: 32-bit wrap-around addition. -/
def K (a b : Nat) : Nat := mask32 (a + b)

/-- `L(k,d)`: rotate a 32-bit word left by `d`. -/
def L (k d : Nat) : Nat := mask32 (k <<< d) ||| (k >>> (32 - d))

/-- `~x` on a 32-bit word. -/
def not32 (x : Nat) : Nat := Nat.xor x 4294967295

def r (d F k : Nat) : Nat := (d &&& F) ||| (not32 d &&& k)

def q (d F k : Nat) : Nat := (d &&& k) ||| (F &&& not32 k)

def p (d F k : Nat) : Nat := Nat.xor (Nat.xor d F) k

def n (d F k : Nat) : Nat := Nat.xor F (d ||| not32 k)

def u (G F aa Z k H I : Nat) : Nat := K (L (K G (K (K (r F aa Z) k) I)) H) F

def f (G F aa Z k H I : Nat) : Nat := K (L (K G (K (K (q F aa Z) k) I)) H) F

def D (G F aa Z k H I : Nat) : Nat := K (L (K G (K (K (p F aa Z) k) I)) H) F

def t (G F aa Z k H I : Nat) : Nat := K (L (K G (K (K (n F aa Z) k) I)) H) F

/-- One 64-round compression step: the body of `for(P=0;P<C.length;P+=16)`. -/
def processBlock (Y X W V : Nat) (c : Nat → Nat) : Nat × Nat × Nat × Nat :=
  let h := Y
  let E := X
  let vv := W
  let gg := V
  let Y := u Y X W V (c 0) 7 3614090360
  let V := u V Y X W (c 1) 12 3905402710
  let W := u W V Y X (c 2) 17 606105819
  let X := u X W V Y (c 3) 22 3250441966
  let Y := u Y X W V (c 4) 7 4118548399
  let V := u V Y X W (c 5) 12 1200080426
  let W := u W V Y X (c 6) 17 2821735955
  let X := u X W V Y (c 7) 22 4249261313
  let Y := u Y X W V (c 8) 7 1770035416
  let V := u V Y X W (c 9) 12 2336552879
  let W := u W V Y X (c 10) 17 4294925233
  let X := u X W V Y (c 11) 22 2304563134
  let Y := u Y X W V (c 12) 7 1804603682
  let V := u V Y X W (c 13) 12 4254626195
  let W := u W V Y X (c 14) 17 2792965006
  let X := u X W V Y (c 15) 22 1236535329
  let Y := f Y X W V (c 1) 5 4129170786
  let V := f V Y X W (c 6) 9 3225465664
  let W := f W V Y X (c 11) 14 643717713
  let X := f X W V Y (c 0) 20 3921069994
  let Y := f Y X W V (c 5) 5 3593408605
  let V := f V Y X W (c 10) 9 38016083
  let W := f W V Y X (c 15) 14 3634488961
  let X := f X W V Y (c 4) 20 3889429448
  let Y := f Y X W V (c 9) 5 568446438
  let V := f V Y X W (c 14) 9 3275163606
  let W := f W V Y X (c 3) 14 4107603335
  let X := f X W V Y (c 8) 20 1163531501
  let Y := f Y X W V (c 13) 5 2850285829
  let V := f V Y X W (c 2) 9 4243563512
  let W := f W V Y X (c 7) 14 1735328473
  let X := f X W V Y (c 12) 20 2368359562
  let Y := D Y X W V (c 5) 4 4294588738
  let V := D V Y X W (c 8) 11 2272392833
  let W := D W V Y X (c 11) 16 1839030562
  let X := D X W V Y (c 14) 23 4259657740
  let Y := D Y X W V (c 1) 4 2763975236
  let V := D V Y X W (c 4) 11 1272893353
  let W := D W V Y X (c 7) 16 4139469664
  let X := D X W V Y (c 10) 23 3200236656
  let Y := D Y X W V (c 13) 4 681279174
  let V := D V Y X W (c 0) 11 3936430074
  let W := D W V Y X (c 3) 16 3572445317
  let X := D X W V Y (c 6) 23 76029189
  let Y := D Y X W V (c 9) 4 3654602809
  let V := D V Y X W (c 12) 11 3873151461
  let W := D W V Y X (c 15) 16 530742520
  let X := D X W V Y (c 2) 23 3299628645
  let Y := t Y X W V (c 0) 6 4096336452
  let V := t V Y X W (c 7) 10 1126891415
  let W := t W V Y X (c 14) 15 2878612391
  let X := t X W V Y (c 5) 21 4237533241
  let Y := t Y X W V (c 12) 6 1700485571
  let V := t V Y X W (c 3) 10 2399980690
  let W := t W V Y X (c 10) 15 4293915773
  let X := t X W V Y (c 1) 21 2240044497
  let Y := t Y X W V (c 8) 6 1873313359
  let V := t V Y X W (c 15) 10 4264355552
  let W := t W V Y X (c 6) 15 2734768916
  let X := t X W V Y (c 13) 21 1309151649
  let Y := t Y X W V (c 4) 6 4149444226
  let V := t V Y X W (c 11) 10 3174756917
  let W := t W V Y X (c 2) 15 718787259
  let X := t X W V Y (c 9) 21 3951481745
  let Y := K Y h
  let X := K X E
  let W := K W vv
  let V := K V gg
  (Y, X, W, V)

/-- Iterate `processBlock` over the 16-word blocks of the padded message.
The block count is passed as explicit fuel, so the recursion is structural. -/
def processBlocksAux : Nat → Nat × Nat × Nat × Nat → List Nat → Nat × Nat × Nat × Nat
  | 0, h, _ => h
  | b + 1, (Y, X, W, V), words =>
      processBlocksAux b (processBlock Y X W V (fun i => words.getD i 0)) (words.drop 16)

/-- The `while(H<F)` loop of `e`: OR each message byte into its 32-bit word.
Untouched array slots are `undefined` in the source; JavaScript bitwise
operators treat `undefined` as 0, so the array starts as zeros here. -/
def fillWords : Nat → List Nat → List Nat → List Nat
  | _, [], aa => aa
  | H, c :: rest, aa =>
      fillWords (H + 1) rest
        (aa.set ((H - H % 4) / 4) (aa.getD ((H - H % 4) / 4) 0 ||| (c <<< (H % 4 * 8))))

/-- `e(G)`: pad the byte stream into 16-word blocks with the 0x80 marker and
the 64-bit bit-length trailer (`F<<3` and `F>>>29` as 32-bit patterns). -/
def e (bytes : List Nat) : List Nat :=
  let F := bytes.length
  let x := F + 8
  let k := (x - x % 64) / 64
  let I := (k + 1) * 16
  let aa := fillWords 0 bytes (List.replicate I 0)
  let aa := aa.set ((F - F % 4) / 4) (aa.getD ((F - F % 4) / 4) 0 ||| (128 <<< (F % 4 * 8)))
  let aa := aa.set (I - 2) (mask32 (F <<< 3))
  aa.set (I - 1) (mask32 F >>> 29)

/-- `k.replace(/rn/g,"n")` from `J`: global left-to-right replacement of the
two-character sequence `rn` by `n`. -/
def replaceRN : List Char → List Char
  | [] => []
  | 'r' :: 'n' :: rest => 'n' :: replaceRN rest
  | ch :: rest => ch :: replaceRN rest

/-- The UTF-8 style multi-byte expansion performed per character by `J`. -/
def utf8Bytes (ch : Char) : List Nat :=
  let x := ch.toNat
  if x < 128 then [x]
  else if x < 2048 then [(x >>> 6) ||| 192, (x &&& 63) ||| 128]
  else [(x >>> 12) ||| 224, ((x >>> 6) &&& 63) ||| 128, (x &&& 63) ||| 128]

/-- `J(k)`: the encoding step applied to the input before hashing. -/
def J (s : List Char) : List Nat := (replaceRN s).flatMap utf8Bytes

def hexDigitChars : List Char := "0123456789abcdef".data

def hexDigit (nn : Nat) : Char := hexDigitChars.getD nn '0'

/-- One byte of `B`: `("0"+G.toString(16)).substr(-2)`, two lowercase hex
digits of a value below 256. -/
def toHexByte (g : Nat) : String := String.mk [hexDigit (g / 16 % 16), hexDigit (g % 16)]

/-- `B(x)`: little-endian lowercase hex rendering of a 32-bit word. -/
def B (x : Nat) : String :=
  toHexByte (x >>> 0 &&& 255) ++ toHexByte (x >>> 8 &&& 255) ++
    toHexByte (x >>> 16 &&& 255) ++ toHexByte (x >>> 24 &&& 255)

/-- The final hex rendering `B(Y)+B(X)+B(W)+B(V)`. -/
def md5out (res : Nat × Nat × Nat × Nat) : String :=
  B res.1 ++ B res.2.1 ++ B res.2.2.1 ++ B res.2.2.2

/-- `JOA.md5(s)`.  The final `toLowerCase()` of the source is the identity
here because `hexDigit` already produces lowercase digits. -/
def md5 (s : String) : String :=
  md5out (processBlocksAux ((e (J s.data)).length / 16)
    (1732584193, 4023233417, 2562383102, 271733878) (e (J s.data)))

end MD5

/-! ## JavaScript value model -/

/-- The JavaScript values that flow through the client: `null`, `undefined`,
strings, booleans and (non-negative integral) numbers. -/
inductive JSVal where
  | vNull
  | vUndefined
  | vStr (s : String)
  | vBool (b : Bool)
  | vNum (n : Nat)
deriving DecidableEq

/-- JavaScript truthiness. -/
def truthy : JSVal → Bool
  | .vNull => false
  | .vUndefined => false
  | .vStr s => s != ""
  | .vBool b => b
  | .vNum n => n != 0

/-- JavaScript string coercion as used by `+` on these values. -/
def jsToString : JSVal → String
  | .vNull => "null"
  | .vUndefined => "undefined"
  | .vStr s => s
  | .vBool b => cond b "true" "false"
  | .vNum n => toString n

/-- `a || b`. -/
def jsOr (a b : JSVal) : JSVal := if truthy a then a else b

/-- How a call can fail: `cb(err, null)` with a protocol error code, or a
genuine JavaScript exception. -/
inductive JSErr where
  | joaError (code : String)
  | typeError
  | referenceError
deriving DecidableEq

/-! ## Protocol constants (`JOA.char`, `protocolVersion`, header schema) -/

def charTab : String := "\u0009"

def charEol : String := "\u000A"

def tabChar : Char := '\u0009'

def eolChar : Char := '\u000A'

def protocolVersion : String := "MuniRPCv2:"

/-- `Object.keys(header.attribute)` of the default header object: the
attribute schema in declaration order. -/
def headerAttributeKeys : List String := ["vendor", "hash", "secret", "time"]

/-! ## Header configuration (`JOA.headers(obj)` / `JOA.header`) -/

/-- A caller-supplied header configuration: a JavaScript object with a
`gatewayIdentifier` property and an `attribute` object, the latter modelled
as an association list of property names to values (`attribute` is a Lean
keyword, so the field is called `attributes` here). -/
structure HeaderConfig where
  attributes : List (String × JSVal)
  gatewayIdentifier : JSVal
deriving DecidableEq

/-- JavaScript property lookup `obj[key]`: the bound value, or `undefined`
when the key is absent. -/
def lookupAttr (attrs : List (String × JSVal)) (k : String) : JSVal :=
  match attrs.find? (fun pr => pr.1 == k) with
  | some pr => pr.2
  | none => .vUndefined

/-- The guard `(attributeValue !== null && attributeValue.length > 0) || attributeValue`
of the attribute loop in `constructHeader`.  `undefined !== null` holds in
JavaScript, so a missing attribute reaches `undefined.length` and raises a
TypeError; booleans and numbers have no `length` property (`undefined > 0`
is false), so for them the guard reduces to their own truthiness. -/
def attrCond : JSVal → Except JSErr Bool
  | .vNull => .ok false
  | .vUndefined => .error .typeError
  | .vStr s => .ok (decide (0 < s.length) || truthy (.vStr s))
  | .vBool b => .ok (false || b)
  | .vNum nn => .ok (false || truthy (.vNum nn))

/-- The guard `JOA.header.gatewayIdentifier !== null && JOA.header.gatewayIdentifier.length > 0`. -/
def gwCond : JSVal → Except JSErr Bool
  | .vNull => .ok false
  | .vUndefined => .error .typeError
  | .vStr s => .ok (decide (0 < s.length))
  | .vBool _ => .ok false
  | .vNum _ => .ok false

/-- `headerStr.indexOf(pat) !== -1`: `pat` occurs as a contiguous substring. -/
def hasSub (pat : List Char) : List Char → Bool
  | [] => pat.isEmpty
  | c :: rest => pat.isPrefixOf (c :: rest) || hasSub pat rest

/-- What one iteration of the attribute loop in `constructHeader` appends to
`headerStr` for the key `k` (or the TypeError it raises). -/
def renderAttr (cfg : HeaderConfig) (k : String) : Except JSErr String :=
  match attrCond (lookupAttr cfg.attributes k) with
  | .error err => .error err
  | .ok false => .ok ""
  | .ok true =>
      if k == "time" then .ok ",time"
      else if k != "secret" && k != "hash" then
        .ok ("," ++ k ++ "=" ++ jsToString (lookupAttr cfg.attributes k))
      else .ok ""

/-- The whole attribute loop: the concatenation of the per-key fragments. -/
def renderAttrs (cfg : HeaderConfig) : List String → Except JSErr String
  | [] => .ok ""
  | k :: rest =>
      match renderAttr cfg k with
      | .error err => .error err
      | .ok s =>
          match renderAttrs cfg rest with
          | .error err => .error err
          | .ok srest => .ok (s ++ srest)

/-- The final check of `constructHeader`: `headerStr.indexOf("vendor=") !== -1`. -/
def vendorCheck (headerStr : String) : Except JSErr String :=
  if hasSub "vendor=".data headerStr.data then .ok headerStr
  else .error (.joaError "no_vendor_attribute_set")

/-- `JOA.constructHeader`. -/
def constructHeader (cfg : HeaderConfig) : Except JSErr String :=
  match gwCond cfg.gatewayIdentifier with
  | .error err => .error err
  | .ok false => .error (.joaError "no_gatewayidentifier_set")
  | .ok true =>
      match renderAttrs cfg headerAttributeKeys with
      | .error err => .error err
      | .ok attrs =>
          vendorCheck (protocolVersion ++ jsToString cfg.gatewayIdentifier ++ attrs ++ charEol)

/-! ## Message queue -/

/-- A queued message: a JavaScript object, i.e. named fields in insertion
order (`Object.keys` enumerates them in this order). -/
structure Report where
  fields : List (String × JSVal)
deriving DecidableEq

/-- `message.id`. -/
def Report.idVal (rp : Report) : JSVal := lookupAttr rp.fields "id"

/-- The client state touched by the queue operations: the `messageId`
counter and the `messages` array. -/
structure JOAState where
  messageId : Nat
  messages : List Report
deriving DecidableEq

/-- `JOA.generateId`: pre-increment the shared counter and return it. -/
def generateId (s : JOAState) : Nat × JOAState :=
  (s.messageId + 1, { s with messageId := s.messageId + 1 })

def messageType_ZCLReport : JSVal := .vNum 0

def messageType_ZCLMultiReport : JSVal := .vNum 1

def messageType_ZCLCommand : JSVal := .vNum 2

def messageType_TAZFrame : JSVal := .vNum 3

def messageType_TimeIndication : JSVal := .vStr "t"

/-- `JOA.addZCLReport`. -/
def addZCLReport (eui64 endpointId profileId clusterId attributeId dataTypeId timestamp value : JSVal)
    (s : JOAState) : Report × JOAState :=
  match generateId s with
  | (i, s1) =>
      let obj : Report := ⟨[("id", .vNum i), ("messageType", messageType_ZCLReport),
        ("eui64", eui64),
        ("endpointId", jsOr endpointId (.vStr "0x0a")),
        ("profileId", jsOr profileId (.vStr "0xf100")),
        ("clusterId", clusterId), ("attributeId", attributeId),
        ("dataTypeId", dataTypeId), ("timestamp", timestamp), ("value", value)]⟩
      (obj, { s1 with messages := s1.messages ++ [obj] })

/-- `JOA.addZCLMultiReport`. -/
def addZCLMultiReport
    (eui64 endpointId profileId clusterId attributeId dataTypeId timestamp offset values : JSVal)
    (s : JOAState) : Report × JOAState :=
  match generateId s with
  | (i, s1) =>
      let obj : Report := ⟨[("id", .vNum i), ("messageType", messageType_ZCLMultiReport),
        ("eui64", eui64),
        ("endpointId", jsOr endpointId (.vStr "0x0a")),
        ("profileId", jsOr profileId (.vStr "0xf100")),
        ("clusterId", clusterId), ("attributeId", attributeId),
        ("dataTypeId", dataTypeId), ("timestamp", timestamp),
        ("offset", offset), ("values", values)]⟩
      (obj, { s1 with messages := s1.messages ++ [obj] })

/-- `JOA.addZCLCommand`.  Its object literal evaluates left to right:
`generateId()` runs first, but the later field `offset: offset` reads the
identifier `offset`, which is declared nowhere in the module.  Under
`"use strict"` this raises a ReferenceError, so no object is built and
nothing is pushed onto the queue, yet the id counter has already been
incremented. -/
def addZCLCommand
    (eui64 endpointId profileId clusterId isClusterSpecific commandId timestamp value : JSVal)
    (s : JOAState) : Except JSErr Report × JOAState :=
  match generateId s with
  | (_, s1) => (.error .referenceError, s1)

/-- `JOA.addTime`. -/
def addTime (timestamp : JSVal) (s : JOAState) : Report × JOAState :=
  match generateId s with
  | (i, s1) =>
      let obj : Report := ⟨[("id", .vNum i), ("messageType", messageType_TimeIndication),
        ("timestamp", timestamp)]⟩
      (obj, { s1 with messages := s1.messages ++ [obj] })

/-- `JOA.clearMessages`. -/
def clearMessages (s : JOAState) : JOAState := { s with messages := [] }

/-- The scan-and-splice loop of `JOA.removeMessage` on the messages array:
whether a message with this id was found, and the array after `splice`. -/
def removeFirst (id : JSVal) : List Report → Bool × List Report
  | [] => (false, [])
  | rp :: rest =>
      if rp.idVal == id then (true, rest)
      else ((removeFirst id rest).1, rp :: (removeFirst id rest).2)

/-- `JOA.removeMessage`. -/
def removeMessage (id : JSVal) (s : JOAState) : Bool × JOAState :=
  ((removeFirst id s.messages).1, { s with messages := (removeFirst id s.messages).2 })

/-! ## Serialization and payload composition -/

/-- One converted message in `constructMessages`: the field values joined by
the tab character (the trailing tab is cut by `slice(0,-1)`), terminated by
the eol character. -/
def renderMessage (rp : Report) : String :=
  let joined := rp.fields.foldl (fun acc pr => acc ++ jsToString pr.2 ++ charTab) ""
  String.mk joined.data.dropLast ++ charEol

/-- `JOA.constructMessages`: the array of converted messages. -/
def constructMessages (msgs : List Report) : List String := msgs.map renderMessage

/-- JavaScript string coercion of an array (`Array.prototype.toString`):
the elements joined with `","`.  `constructJOAPayload` concatenates the
*array* returned by `constructMessages()` onto a string, which triggers
exactly this coercion. -/
def arrayToString (l : List String) : String := String.intercalate "," l

/-- `v.length > 0` for a JavaScript value: only strings have a numeric
`length` here; for the others the comparison is `undefined > 0`, false. -/
def lengthGtZero : JSVal → Bool
  | .vStr s => decide (0 < s.length)
  | _ => false

/-- `payload.indexOf(char.eol)`.  Every payload reaching this point contains
an eol (the header ends with one), so the JavaScript `-1` case cannot
occur. -/
def indexOfEol (s : String) : Nat := s.data.findIdx (fun c => c == eolChar)

def strTake (s : String) (i : Nat) : String := String.mk (s.data.take i)

def strDrop (s : String) (i : Nat) : String := String.mk (s.data.drop i)

/-- `JOA.hashJOAPayload`: splice `,hash=<digest>` in front of the first eol
of the payload.  The `console.log` calls in the source have no effect on the
returned value. -/
def hashJOAPayload (secret : String) (payload : String) : String :=
  let i := indexOfEol payload
  strTake payload i ++ ",hash=" ++ MD5.md5 (secret ++ payload) ++ strDrop payload i

/-- `JOA.constructJOAPayload`. -/
def constructJOAPayload (cfg : HeaderConfig) (msgs : List Report) : Except JSErr String :=
  match constructHeader cfg with
  | .error err => .error err
  | .ok result =>
      if !truthy (lookupAttr cfg.attributes "hash") then
        .ok (result ++ arrayToString (constructMessages msgs))
      else if truthy (lookupAttr cfg.attributes "hash") &&
          (truthy (lookupAttr cfg.attributes "secret") &&
            lengthGtZero (lookupAttr cfg.attributes "secret")) then
        .ok (hashJOAPayload (jsToString (lookupAttr cfg.attributes "secret"))
          (result ++ arrayToString (constructMessages msgs)))
      else .error (.joaError "no_secret_set")

/-! ## Operation traces (for the id-counter invariants) -/

/-- The queue-mutating operations a caller can perform. -/
inductive Op where
  | opAddZCLReport (a1 a2 a3 a4 a5 a6 a7 a8 : JSVal)
  | opAddZCLMultiReport (a1 a2 a3 a4 a5 a6 a7 a8 a9 : JSVal)
  | opAddZCLCommand (a1 a2 a3 a4 a5 a6 a7 a8 : JSVal)
  | opAddTime (a1 : JSVal)
  | opRemoveMessage (id : JSVal)
  | opClearMessages

/-- State transition of one operation. -/
def applyOp (s : JOAState) : Op → JOAState
  | .opAddZCLReport a1 a2 a3 a4 a5 a6 a7 a8 => (addZCLReport a1 a2 a3 a4 a5 a6 a7 a8 s).2
  | .opAddZCLMultiReport a1 a2 a3 a4 a5 a6 a7 a8 a9 =>
      (addZCLMultiReport a1 a2 a3 a4 a5 a6 a7 a8 a9 s).2
  | .opAddZCLCommand a1 a2 a3 a4 a5 a6 a7 a8 => (addZCLCommand a1 a2 a3 a4 a5 a6 a7 a8 s).2
  | .opAddTime a1 => (addTime a1 s).2
  | .opRemoveMessage id => (removeMessage id s).2
  | .opClearMessages => clearMessages s

/-- Run a sequence of operations. -/
def run (s : JOAState) : List Op → JOAState
  | [] => s
  | op :: rest => run (applyOp s op) rest

/-- The Reports one operation creates (builds and appends): one for the three
report-building constructors, none otherwise.  `addZCLCommand` consumes an id
but raises before creating a Report. -/
def createdNow (s : JOAState) : Op → List Report
  | .opAddZCLReport a1 a2 a3 a4 a5 a6 a7 a8 => [(addZCLReport a1 a2 a3 a4 a5 a6 a7 a8 s).1]
  | .opAddZCLMultiReport a1 a2 a3 a4 a5 a6 a7 a8 a9 =>
      [(addZCLMultiReport a1 a2 a3 a4 a5 a6 a7 a8 a9 s).1]
  | .opAddTime a1 => [(addTime a1 s).1]
  | _ => []

/-- The Reports created along a trace, in order. -/
def createdReports (s : JOAState) : List Op → List Report
  | [] => []
  | op :: rest => createdNow s op ++ createdReports (applyOp s op) rest

/-- The numeric id of a Report (all created Reports carry `vNum` ids). -/
def reportIdNum (rp : Report) : Nat :=
  match rp.idVal with
  | .vNum nn => nn
  | _ => 0

/-- The ids assigned to the Reports created along a trace, in order. -/
def createdIds (s : JOAState) (ops : List Op) : List Nat :=
  (createdReports s ops).map reportIdNum


/-! ## Concrete fixtures used in the theorems -/

/-- The header configuration of the reference end-to-end scenario. -/
def c1Config : HeaderConfig :=
  ⟨[("vendor", .vStr "androidnode"), ("time", .vBool true), ("hash", .vBool true),
    ("secret", .vStr "waiga6ieGo4eefo2thaQuash4ahc4aid")], .vStr "10.32.16.1"⟩

/-- A minimal valid configuration without hashing. -/
def c2Config : HeaderConfig :=
  ⟨[("vendor", .vStr "debug"), ("time", .vBool false), ("hash", .vBool false),
    ("secret", .vNull)], .vStr "0.0.0.0"⟩

/-- The client state after two `addZCLReport` calls from a fresh state. -/
def twoReportState : JOAState :=
  (addZCLReport (.vStr "e2") .vNull .vNull (.vStr "c2") (.vStr "a2") (.vStr "d2") (.vNum 2000)
    (.vStr "v2")
    ((addZCLReport (.vStr "e1") .vNull .vNull (.vStr "c1") (.vStr "a1") (.vStr "d1") (.vNum 1000)
      (.vStr "v1") ⟨0, []⟩).2)).2

/-- A queue holding two ZCL reports (ids 1 and 2). -/
def c2Queue : List Report := twoReportState.messages

/-- A configuration whose gateway identifier itself contains `vendor=`. -/
def gwVendorConfig : HeaderConfig :=
  ⟨[("vendor", .vNull), ("hash", .vBool false), ("secret", .vNull), ("time", .vBool false)],
    .vStr "vendor="⟩

/-- A valid plain configuration: vendor set, no time, no hash. -/
def plainConfig : HeaderConfig :=
  ⟨[("vendor", .vStr "debug"), ("hash", .vBool false), ("secret", .vNull),
    ("time", .vBool false)], .vStr "0.0.0.0"⟩

/-- `plainConfig` with vendor null instead. -/
def noVendorConfig : HeaderConfig :=
  ⟨[("vendor", .vNull), ("hash", .vBool false), ("secret", .vNull), ("time", .vBool false)],
    .vStr "0.0.0.0"⟩

/-- The same five schema values as `plainConfig`, bound in a different order
and with an extra, non-schema key thrown in by the caller. -/
def plainConfigShuffled : HeaderConfig :=
  ⟨[("extraneous", .vStr "ignored"), ("time", .vBool false), ("secret", .vNull),
    ("hash", .vBool false), ("vendor", .vStr "debug")], .vStr "0.0.0.0"⟩

/-- `plainConfig` without a gateway identifier. -/
def noGwConfig : HeaderConfig :=
  ⟨[("vendor", .vStr "debug"), ("hash", .vBool false), ("secret", .vNull),
    ("time", .vBool false)], .vNull⟩

/-- The hash-enabled configuration exercised by the repository test suite. -/
def hashConfig : HeaderConfig :=
  ⟨[("vendor", .vStr "debug"), ("time", .vBool false), ("hash", .vBool true),
    ("secret", .vStr "simplesecret")], .vStr "0.0.0.0"⟩

/-- The first report created in `twoReportState` (it carries id 1). -/
def firstReport : Report :=
  (addZCLReport (.vStr "e1") .vNull .vNull (.vStr "c1") (.vStr "a1") (.vStr "d1") (.vNum 1000)
    (.vStr "v1") ⟨0, []⟩).1

/-- The header line `hashConfig` produces before hash splicing. -/
def hashHdr : String := "MuniRPCv2:0.0.0.0,vendor=debug\n"

/-- An operation trace mixing adds, a removal and a clear. -/
def mixedOps : List Op :=
  [.opAddZCLReport (.vStr "e1") .vNull .vNull (.vStr "c") (.vStr "a") (.vStr "d") (.vNum 1)
     (.vStr "v"),
   .opAddTime (.vNum 5),
   .opRemoveMessage (.vNum 1),
   .opClearMessages,
   .opAddZCLMultiReport (.vStr "e2") .vNull .vNull (.vStr "c") (.vStr "a") (.vStr "d") (.vNum 2)
     (.vNum 0) (.vStr "vs")]

/-! ## General lemmas about the embedding -/

theorem strAppendEmpty (s : String) : s ++ "" = s :=
  String.ext (by rw [String.data_append]; exact List.append_nil s.data)

theorem strEmptyAppend (s : String) : "" ++ s = s :=
  String.ext (by rw [String.data_append]; rfl)

/-! ## C1: the reference end-to-end scenario -/

/-- C1: starting from an empty queue in a process that has already created
three reports, adding the reference ZCL report (defaults for endpoint and
profile) and composing under the reference header configuration yields
exactly the reference payload, with id 4 and the expected md5 splice. -/
theorem c1_end_to_end_payload :
    constructJOAPayload c1Config
      ((addZCLReport (.vStr "f104:00ff:0000:0001") .vNull .vNull (.vStr "0x0402") (.vStr "0x0000")
        (.vStr "0x20") (.vNum 1474552384381) (.vStr "1") ⟨3, []⟩).2).messages =
    .ok "MuniRPCv2:10.32.16.1,vendor=androidnode,time,hash=2419746b3a7ed995a1caadb93c4973c3\n4\t0\tf104:00ff:0000:0001\t0x0a\t0xf100\t0x0402\t0x0000\t0x20\t1474552384381\t1\n" :=
  rfl

/-! ## C2: serialization of the queue handed to composition -/

/-- C2: each queued Report does render as its field values tab-joined and
eol-terminated, but the payload handed to composition is *not* their plain
concatenation: `constructJOAPayload` concatenates the array returned by
`constructMessages()` onto the header string, and the JavaScript array
coercion joins the entries with a comma, so two queued reports are separated
by `","`. -/
theorem c2_comma_between_reports :
    constructMessages c2Queue =
      ["1\t0\te1\t0x0a\t0xf100\tc1\ta1\td1\t1000\tv1\n",
       "2\t0\te2\t0x0a\t0xf100\tc2\ta2\td2\t2000\tv2\n"] ∧
    constructJOAPayload c2Config c2Queue =
      .ok ("MuniRPCv2:0.0.0.0,vendor=debug\n" ++
        "1\t0\te1\t0x0a\t0xf100\tc1\ta1\td1\t1000\tv1\n" ++ "," ++
        "2\t0\te2\t0x0a\t0xf100\tc2\ta2\td2\t2000\tv2\n") ∧
    constructJOAPayload c2Config c2Queue ≠
      .ok ("MuniRPCv2:0.0.0.0,vendor=debug\n" ++
        "1\t0\te1\t0x0a\t0xf100\tc1\ta1\td1\t1000\tv1\n" ++
        "2\t0\te2\t0x0a\t0xf100\tc2\ta2\td2\t2000\tv2\n") := by
  refine ⟨rfl, rfl, ?_⟩
  intro h
  rw [show constructJOAPayload c2Config c2Queue =
    .ok ("MuniRPCv2:0.0.0.0,vendor=debug\n" ++
      "1\t0\te1\t0x0a\t0xf100\tc1\ta1\td1\t1000\tv1\n" ++ "," ++
      "2\t0\te2\t0x0a\t0xf100\tc2\ta2\td2\t2000\tv2\n") from rfl] at h
  injection h with h1
  exact absurd h1 (by decide)

/-! ## C3: `addZCLCommand` -/

/-- C3: `addZCLCommand` does not behave like `addZCLReport`: its object
literal reads the undeclared identifier `offset`, so (under the module's
`"use strict"`) every call raises a ReferenceError after having consumed an
id; no Report is appended and none is returned. -/
theorem c3_addZCLCommand_raises :
    addZCLCommand (.vStr "00:11:22:33:44:55:66:77") .vNull .vNull (.vStr "0x0006") (.vStr "1")
      (.vStr "0x01") (.vNum 1000) (.vStr "1") ⟨0, []⟩ =
    (.error .referenceError, ⟨1, []⟩) :=
  rfl

/-! ## C4: missing gateway identifier -/

/-- C4: whenever the gateway identifier is null or empty, composition fails
with `no_gatewayidentifier_set`, whatever the other attributes and the queue
contents; no payload is produced. -/
theorem c4_missing_gateway (cfg : HeaderConfig) (msgs : List Report)
    (h : cfg.gatewayIdentifier = .vNull ∨ cfg.gatewayIdentifier = .vStr "") :
    constructJOAPayload cfg msgs = .error (.joaError "no_gatewayidentifier_set") := by
  have hg : gwCond cfg.gatewayIdentifier = .ok false := by
    rcases h with h | h <;> rw [h] <;> exact rfl
  unfold constructJOAPayload constructHeader
  rw [hg]

/-- Witness for C4 at a concrete configuration and a non-empty queue. -/
theorem c4_missing_gateway_witness :
    (noGwConfig.gatewayIdentifier = .vNull ∨ noGwConfig.gatewayIdentifier = .vStr "") ∧
    constructJOAPayload noGwConfig c2Queue = .error (.joaError "no_gatewayidentifier_set") :=
  ⟨Or.inl rfl, c4_missing_gateway noGwConfig c2Queue (Or.inl rfl)⟩

/-! ## C9: `addZCLReport` defaults -/

/-- C9: `addZCLReport` substitutes `"0x0a"` for a missing (falsy) endpointId
and `"0xf100"` for a missing profileId, keeps supplied (truthy) values
verbatim, stores the next id, appends the Report to the queue and returns
it. -/
theorem c9_addZCLReport_defaults
    (eui64 endpointId profileId clusterId attributeId dataTypeId timestamp value : JSVal)
    (s : JOAState) :
    lookupAttr (addZCLReport eui64 endpointId profileId clusterId attributeId dataTypeId timestamp
        value s).1.fields "endpointId" =
      (if truthy endpointId then endpointId else JSVal.vStr "0x0a") ∧
    lookupAttr (addZCLReport eui64 endpointId profileId clusterId attributeId dataTypeId timestamp
        value s).1.fields "profileId" =
      (if truthy profileId then profileId else JSVal.vStr "0xf100") ∧
    (addZCLReport eui64 endpointId profileId clusterId attributeId dataTypeId timestamp
        value s).1.idVal = .vNum (s.messageId + 1) ∧
    (addZCLReport eui64 endpointId profileId clusterId attributeId dataTypeId timestamp
        value s).2.messageId = s.messageId + 1 ∧
    (addZCLReport eui64 endpointId profileId clusterId attributeId dataTypeId timestamp
        value s).2.messages =
      s.messages ++ [(addZCLReport eui64 endpointId profileId clusterId attributeId dataTypeId
        timestamp value s).1] :=
  ⟨rfl, rfl, rfl, rfl, rfl⟩

/-! ## C10: the header depends only on the five schema values -/

theorem renderAttr_congr (c1 c2 : HeaderConfig) (k : String)
    (h : lookupAttr c1.attributes k = lookupAttr c2.attributes k) :
    renderAttr c1 k = renderAttr c2 k := by
  unfold renderAttr
  rw [h]

theorem renderAttrs_congr (c1 c2 : HeaderConfig) (ks : List String)
    (h : ∀ k ∈ ks, lookupAttr c1.attributes k = lookupAttr c2.attributes k) :
    renderAttrs c1 ks = renderAttrs c2 ks := by
  induction ks with
  | nil => rfl
  | cons k rest ih =>
      unfold renderAttrs
      rw [renderAttr_congr c1 c2 k (h k (by simp)), ih (fun q hq => h q (by simp [hq]))]

/-- C10: header construction reads the caller configuration only through the
gateway identifier and the four schema attribute keys (in schema order);
two configurations agreeing there produce identical results, so any extra
key the caller adds is never rendered. -/
theorem c10_header_schema_only (c1 c2 : HeaderConfig)
    (hgw : c1.gatewayIdentifier = c2.gatewayIdentifier)
    (hat : ∀ k ∈ headerAttributeKeys, lookupAttr c1.attributes k = lookupAttr c2.attributes k) :
    constructHeader c1 = constructHeader c2 := by
  unfold constructHeader
  rw [hgw, renderAttrs_congr c1 c2 headerAttributeKeys hat]

/-- Witness for C10: bindings in a different order plus an extra non-schema
key yield the very same header. -/
theorem c10_header_schema_only_witness :
    plainConfig.gatewayIdentifier = plainConfigShuffled.gatewayIdentifier ∧
    (∀ k ∈ headerAttributeKeys,
      lookupAttr plainConfig.attributes k = lookupAttr plainConfigShuffled.attributes k) ∧
    constructHeader plainConfig = constructHeader plainConfigShuffled :=
  ⟨rfl, by decide,
    c10_header_schema_only plainConfig plainConfigShuffled rfl (by decide)⟩


/-! ## C7: the shared id counter -/

theorem applyOp_messageId_le (s : JOAState) (op : Op) :
    s.messageId ≤ (applyOp s op).messageId := by
  cases op
  all_goals first
    | exact Nat.le_succ _
    | exact Nat.le_refl _

theorem run_messageId_le (ops : List Op) :
    ∀ s : JOAState, s.messageId ≤ (run s ops).messageId := by
  induction ops with
  | nil => intro s; exact Nat.le_refl _
  | cons op rest ih =>
      intro s
      exact Nat.le_trans (applyOp_messageId_le s op) (ih (applyOp s op))

theorem createdIds_cons (s : JOAState) (op : Op) (rest : List Op) :
    createdIds s (op :: rest) =
      (createdNow s op).map reportIdNum ++ createdIds (applyOp s op) rest := by
  simp only [createdIds, createdReports]
  exact List.map_append reportIdNum _ _

theorem createdNow_ids (s : JOAState) (op : Op) :
    ∀ rp ∈ createdNow s op, reportIdNum rp = s.messageId + 1 := by
  intro rp hrp
  cases op <;> simp only [createdNow] at hrp <;>
    first
      | exact absurd hrp (List.not_mem_nil rp)
      | (rw [List.mem_singleton] at hrp; subst hrp; exact rfl)

theorem createdNow_applyOp (s : JOAState) (op : Op) (rp : Report)
    (h : rp ∈ createdNow s op) : (applyOp s op).messageId = s.messageId + 1 := by
  cases op <;> first | rfl | exact absurd h (List.not_mem_nil rp)

theorem createdIds_lower (ops : List Op) :
    ∀ (s : JOAState), ∀ x ∈ createdIds s ops, s.messageId < x := by
  induction ops with
  | nil => intro s x hx; simp [createdIds, createdReports] at hx
  | cons op rest ih =>
      intro s x hx
      rw [createdIds_cons] at hx
      rcases List.mem_append.mp hx with hx | hx
      · obtain ⟨rp, hrp, hid⟩ := List.mem_map.mp hx
        rw [← hid, createdNow_ids s op rp hrp]
        exact Nat.lt_succ_of_le (Nat.le_refl _)
      · exact Nat.lt_of_le_of_lt (applyOp_messageId_le s op) (ih (applyOp s op) x hx)

theorem createdIds_pairwise (ops : List Op) :
    ∀ s : JOAState, List.Pairwise (· < ·) (createdIds s ops) := by
  induction ops with
  | nil => intro s; simp [createdIds, createdReports]
  | cons op rest ih =>
      intro s
      rw [createdIds_cons, List.pairwise_append]
      refine ⟨?_, ih (applyOp s op), ?_⟩
      · cases op <;> simp [createdNow]
      · intro a ha b hb
        obtain ⟨rp, hrp, hid⟩ := List.mem_map.mp ha
        have ha1 : reportIdNum rp = s.messageId + 1 := createdNow_ids s op rp hrp
        have h2 : (applyOp s op).messageId = s.messageId + 1 := createdNow_applyOp s op rp hrp
        have h3 := createdIds_lower rest (applyOp s op) b hb
        omega

/-- C7: message ids come from the single shared counter: along any operation
trace the ids of the created Reports are strictly increasing (hence never
reused, whatever removals or clears intervene), every id created from a
state exceeds that state's counter value, and `removeMessage` and
`clearMessages` leave the counter untouched. -/
theorem c7_id_counter :
    (∀ (s : JOAState) (ops : List Op), List.Pairwise (· < ·) (createdIds s ops)) ∧
    (∀ (s : JOAState) (ops : List Op), ∀ x ∈ createdIds s ops, s.messageId < x) ∧
    (∀ (s : JOAState) (id : JSVal), ((removeMessage id s).2).messageId = s.messageId) ∧
    (∀ s : JOAState, (clearMessages s).messageId = s.messageId) :=
  ⟨fun s ops => createdIds_pairwise ops s, fun s ops => createdIds_lower ops s,
   fun _ _ => rfl, fun _ => rfl⟩

/-- Witness for C7 on a concrete trace with a removal and a clear in the
middle: the multi-report created last still gets the fresh id 3. -/
theorem c7_id_counter_witness :
    3 ∈ createdIds ⟨0, []⟩ mixedOps ∧ 0 < 3 :=
  ⟨by decide, c7_id_counter.2.1 ⟨0, []⟩ mixedOps 3 (by decide)⟩

/-! ## C8: `removeMessage` -/

theorem removeFirst_fst_iff (id : JSVal) (l : List Report) :
    (removeFirst id l).1 = true ↔ ∃ rp ∈ l, rp.idVal = id := by
  induction l with
  | nil =>
      constructor
      · intro h; exact absurd h (by simp [removeFirst])
      · rintro ⟨rp, hrp, _⟩; exact absurd hrp (List.not_mem_nil rp)
  | cons rp rest ih =>
      cases hb : rp.idVal == id
      · have hne : rp.idVal ≠ id := by
          intro he
          rw [he] at hb
          simp at hb
        have hfst : (removeFirst id (rp :: rest)).1 = (removeFirst id rest).1 := by
          simp [removeFirst, hb]
        constructor
        · intro h
          rw [hfst] at h
          obtain ⟨rq, hrq, hrqid⟩ := ih.mp h
          exact ⟨rq, List.mem_cons_of_mem rp hrq, hrqid⟩
        · rintro ⟨rq, hrq, hrqid⟩
          rcases List.mem_cons.mp hrq with rfl | hrq
          · exact absurd hrqid hne
          · rw [hfst]
            exact ih.mpr ⟨rq, hrq, hrqid⟩
      · have heq : rp.idVal = id := beq_iff_eq.mp hb
        constructor
        · intro _; exact ⟨rp, List.mem_cons_self rp rest, heq⟩
        · intro _; simp [removeFirst, hb]

theorem removeFirst_first (id : JSVal) (pre : List Report) :
    ∀ (post : List Report) (rp : Report), (∀ rq ∈ pre, rq.idVal ≠ id) → rp.idVal = id →
      removeFirst id (pre ++ rp :: post) = (true, pre ++ post) := by
  induction pre with
  | nil =>
      intro post rp _ hid
      simp [removeFirst, beq_iff_eq.mpr hid]
  | cons rq pre ih =>
      intro post rp hpre hid
      have hq : (rq.idVal == id) = false := by
        cases hbool : rq.idVal == id
        · rfl
        · exact absurd (beq_iff_eq.mp hbool) (hpre rq (List.mem_cons_self rq pre))
      simp [removeFirst, hq,
        ih post rp (fun rq2 h2 => hpre rq2 (List.mem_cons_of_mem rq h2)) hid]

theorem removeFirst_fst_false (id : JSVal) (l : List Report)
    (h : (removeFirst id l).1 = false) : (removeFirst id l).2 = l := by
  induction l with
  | nil => rfl
  | cons rp rest ih =>
      cases hb : rp.idVal == id
      · have h1 : (removeFirst id rest).1 = false := by
          rw [show (removeFirst id (rp :: rest)).1 = (removeFirst id rest).1 from by
            simp [removeFirst, hb]] at h
          exact h
        simp [removeFirst, hb, ih h1]
      · rw [show (removeFirst id (rp :: rest)).1 = true from by simp [removeFirst, hb]] at h
        exact absurd h (by simp)

theorem createdNow_congr {s1 s2 : JOAState} (h : s1.messageId = s2.messageId) (op : Op) :
    createdNow s1 op = createdNow s2 op := by
  obtain ⟨n1, m1⟩ := s1
  obtain ⟨n2, m2⟩ := s2
  cases h
  cases op <;> rfl

theorem applyOp_messageId_congr {s1 s2 : JOAState} (h : s1.messageId = s2.messageId) (op : Op) :
    (applyOp s1 op).messageId = (applyOp s2 op).messageId := by
  obtain ⟨n1, m1⟩ := s1
  obtain ⟨n2, m2⟩ := s2
  cases h
  cases op <;> rfl

theorem createdIds_congr (ops : List Op) :
    ∀ {s1 s2 : JOAState}, s1.messageId = s2.messageId →
      createdIds s1 ops = createdIds s2 ops := by
  induction ops with
  | nil => intro s1 s2 _; rfl
  | cons op rest ih =>
      intro s1 s2 h
      rw [createdIds_cons, createdIds_cons, createdNow_congr h op,
        ih (applyOp_messageId_congr h op)]

/-- C8: `removeMessage` returns true exactly when some queued Report bears
the id; it then removes the first such Report, leaving the other Reports and
their relative order intact; with no match it returns false and leaves the
whole state unchanged; and in every case the id counter, and with it every
id a later add operation assigns, is unaffected. -/
theorem c8_removeMessage_spec (id : JSVal) (s : JOAState) :
    ((removeMessage id s).1 = true ↔ ∃ rp ∈ s.messages, rp.idVal = id) ∧
    (∀ pre rp post, s.messages = pre ++ rp :: post → (∀ rq ∈ pre, rq.idVal ≠ id) →
      rp.idVal = id → ((removeMessage id s).2).messages = pre ++ post) ∧
    ((removeMessage id s).1 = false → (removeMessage id s).2 = s) ∧
    ((removeMessage id s).2).messageId = s.messageId ∧
    (∀ ops : List Op, createdIds (removeMessage id s).2 ops = createdIds s ops) := by
  refine ⟨removeFirst_fst_iff id s.messages, ?_, ?_, rfl, ?_⟩
  · intro pre rp post hs hpre hid
    show (removeFirst id s.messages).2 = pre ++ post
    rw [hs, removeFirst_first id pre post rp hpre hid]
  · intro h
    show (⟨s.messageId, (removeFirst id s.messages).2⟩ : JOAState) = s
    rw [removeFirst_fst_false id s.messages h]
  · intro ops
    exact createdIds_congr ops rfl

/-- Witness for C8: removing an absent id leaves the concrete two-report
state untouched, and removing id 1 reports success. -/
theorem c8_removeMessage_spec_witness :
    (removeMessage (.vNum 99) twoReportState).2 = twoReportState ∧
    (removeMessage (.vNum 1) twoReportState).1 = true :=
  ⟨(c8_removeMessage_spec (.vNum 99) twoReportState).2.2.1 (by decide),
   (c8_removeMessage_spec (.vNum 1) twoReportState).1.mpr ⟨firstReport, by decide, by decide⟩⟩


/-! ## Substring machinery for the vendor check -/

theorem prefOf_iff : ∀ {p l : List Char}, p.isPrefixOf l = true ↔ p <+: l
  | [], l => by simp [List.isPrefixOf, List.nil_prefix]
  | a :: p, [] => by simp [List.isPrefixOf, List.prefix_nil]
  | a :: p, b :: l => by
      simp [List.isPrefixOf, List.cons_prefix_cons, @prefOf_iff p l]

theorem hasSub_iff {pat l : List Char} : hasSub pat l = true ↔ pat <:+: l := by
  induction l with
  | nil => simp [hasSub, List.isEmpty_iff, List.infix_nil]
  | cons c rest ih => simp [hasSub, prefOf_iff, ih, List.infix_cons_iff]

theorem hasSub_mid (pat a b : List Char) : hasSub pat (a ++ (pat ++ b)) = true :=
  hasSub_iff.mpr ⟨a, b, List.append_assoc a pat b⟩

theorem infix_append_split {p a b : List Char} (h : p <:+: a ++ b) :
    p <:+: a ∨ p <:+: b ∨
      ∃ p1 p2, p = p1 ++ p2 ∧ p1 ≠ [] ∧ p2 ≠ [] ∧ p1 <:+ a ∧ p2 <+: b := by
  obtain ⟨s, t, hst⟩ := h
  rw [List.append_assoc] at hst
  rcases List.append_eq_append_iff.mp hst with ⟨w, hw1, hw2⟩ | ⟨w, hw1, hw2⟩
  · -- hw1 : a = s ++ w, hw2 : p ++ t = w ++ b
    rcases List.append_eq_append_iff.mp hw2 with ⟨y, hy1, hy2⟩ | ⟨y, hy1, hy2⟩
    · -- hy1 : w = p ++ y : the occurrence lies inside a
      left
      exact ⟨s, y, by rw [hw1, hy1, List.append_assoc]⟩
    · -- hy1 : p = w ++ y, hy2 : b = y ++ t
      rcases eq_or_ne w [] with rfl | hw
      · right; left
        exact ⟨[], t, by rw [hy2, hy1]; simp⟩
      · rcases eq_or_ne y [] with rfl | hy
        · left
          refine ⟨s, [], ?_⟩
          rw [hw1, hy1]
          simp
        · right; right
          exact ⟨w, y, hy1, hw, hy, ⟨s, hw1.symm⟩, ⟨t, hy2.symm⟩⟩
  · -- hw2 : b = w ++ (p ++ t) : the occurrence lies inside b
    right; left
    exact ⟨w, t, by rw [hw2, List.append_assoc]⟩

/-- If `vendor=` does not occur in the gateway identifier, it cannot occur in
a header line built from it: the protocol token and the optional `,time` tail
contain no equals sign, the token ends in `:`, and the tail starts with `,`
or the eol, none of which are characters of `vendor=`. -/
theorem no_vendor_occurrence {gw tp : List Char}
    (hgw : ¬ ("vendor=".data <:+: gw))
    (ht : tp = "\n".data ∨ tp = ",time\n".data) :
    ¬ ("vendor=".data <:+: ("MuniRPCv2:".data ++ gw ++ tp)) := by
  intro h
  rw [List.append_assoc] at h
  rcases infix_append_split h with hA | hB | ⟨p1, p2, hp, hp1ne, hp2ne, hp1suf, hp2pre⟩
  · have h1 : ('=' : Char) ∈ "MuniRPCv2:".data := hA.sublist.subset (by decide)
    exact absurd h1 (by decide)
  · rcases infix_append_split hB with hC | hD | ⟨q1, q2, hq, hq1ne, hq2ne, hq1suf, hq2pre⟩
    · exact hgw hC
    · have h1 : ('=' : Char) ∈ tp := hD.sublist.subset (by decide)
      rcases ht with rfl | rfl
      · exact absurd h1 (by decide)
      · exact absurd h1 (by decide)
    · obtain ⟨c, q2x, rfl⟩ : ∃ c q2x, q2 = c :: q2x := by
        cases q2 with
        | nil => exact absurd rfl hq2ne
        | cons c q2x => exact ⟨c, q2x, rfl⟩
      have hc : c ∈ "vendor=".data := by
        rw [hq]
        exact List.mem_append_right q1 (List.mem_cons_self c q2x)
      obtain ⟨u, hu⟩ := hq2pre
      rcases ht with rfl | rfl
      · have hc2 : c = '\n' := by
          have h2 := congrArg (fun l => l.head?) hu
          simpa using h2
        rw [hc2] at hc
        exact absurd hc (by decide)
      · have hc2 : c = ',' := by
          have h2 := congrArg (fun l => l.head?) hu
          simpa using h2
        rw [hc2] at hc
        exact absurd hc (by decide)
  · obtain ⟨l1, c, rfl⟩ : ∃ l1 c, p1 = l1 ++ [c] := by
      rcases List.eq_nil_or_concat p1 with rfl | ⟨L, bb, hL⟩
      · exact absurd rfl hp1ne
      · exact ⟨L, bb, by rw [hL, List.concat_eq_append]⟩
    have hc : c ∈ "vendor=".data := by
      rw [hp]
      exact List.mem_append_left p2 (List.mem_append_right l1 (List.mem_singleton.mpr rfl))
    obtain ⟨u, hu⟩ := hp1suf
    have hlast : c = ':' := by
      have h1 : ((u ++ l1) ++ [c]).getLast? = some c := List.getLast?_concat _
      rw [List.append_assoc, hu] at h1
      have h2 : "MuniRPCv2:".data.getLast? = some ':' := by decide
      rw [h2] at h1
      exact (Option.some.inj h1).symm
    rw [hlast] at hc
    exact absurd hc (by decide)

/-! ## Evaluation lemmas for header construction -/

theorem decLength_pos {s : String} (h : s ≠ "") : decide (0 < s.length) = true := by
  obtain ⟨d⟩ := s
  cases d with
  | nil => exact absurd rfl h
  | cons c cs => exact decide_eq_true (Nat.succ_pos cs.length)

theorem attrCond_eq {v : JSVal} (h : v ≠ .vUndefined) : attrCond v = .ok (truthy v) := by
  cases v with
  | vNull => rfl
  | vUndefined => exact absurd rfl h
  | vStr s =>
      show Except.ok (decide (0 < s.length) || (s != "")) = .ok (s != "")
      rcases eq_or_ne s "" with rfl | hs
      · rfl
      · rw [decLength_pos hs, bne_iff_ne.mpr hs]
        rfl
  | vBool b => rfl
  | vNum nn => rfl

theorem renderAttr_skip (cfg : HeaderConfig) (k : String) (hk : k = "hash" ∨ k = "secret")
    (h : lookupAttr cfg.attributes k ≠ .vUndefined) : renderAttr cfg k = .ok "" := by
  unfold renderAttr
  rw [attrCond_eq h]
  cases truthy (lookupAttr cfg.attributes k)
  · rfl
  · rcases hk with rfl | rfl <;> rfl

theorem renderAttr_time (cfg : HeaderConfig)
    (h : lookupAttr cfg.attributes "time" ≠ .vUndefined) :
    renderAttr cfg "time" = .ok "" ∨ renderAttr cfg "time" = .ok ",time" := by
  unfold renderAttr
  rw [attrCond_eq h]
  cases truthy (lookupAttr cfg.attributes "time")
  · exact Or.inl rfl
  · exact Or.inr rfl

theorem renderAttr_vendor_empty (cfg : HeaderConfig)
    (h : lookupAttr cfg.attributes "vendor" = .vNull ∨
      lookupAttr cfg.attributes "vendor" = .vStr "") :
    renderAttr cfg "vendor" = .ok "" := by
  unfold renderAttr
  rcases h with h | h <;> rw [h] <;> rfl

theorem renderAttr_vendor_str (cfg : HeaderConfig) (v : String) (hv : v ≠ "")
    (h : lookupAttr cfg.attributes "vendor" = .vStr v) :
    renderAttr cfg "vendor" = .ok (",vendor=" ++ v) := by
  unfold renderAttr
  rw [h, show attrCond (.vStr v) = .ok true from by
    rw [attrCond_eq (fun hc => JSVal.noConfusion hc)]
    show Except.ok (v != "") = .ok true
    rw [bne_iff_ne.mpr hv]]
  rfl

theorem renderAttrs_eval (cfg : HeaderConfig) (vp tp : String)
    (hv : renderAttr cfg "vendor" = .ok vp)
    (hh : renderAttr cfg "hash" = .ok "")
    (hs : renderAttr cfg "secret" = .ok "")
    (htm : renderAttr cfg "time" = .ok tp) :
    renderAttrs cfg headerAttributeKeys = .ok (vp ++ tp) := by
  show renderAttrs cfg ["vendor", "hash", "secret", "time"] = .ok (vp ++ tp)
  simp only [renderAttrs]
  rw [hv, hh, hs, htm]
  show Except.ok (vp ++ ("" ++ ("" ++ (tp ++ "")))) = .ok (vp ++ tp)
  rw [strEmptyAppend, strEmptyAppend, strAppendEmpty]

theorem constructHeader_eval (cfg : HeaderConfig) (gw : String)
    (hgwv : cfg.gatewayIdentifier = .vStr gw) (hgw0 : gw ≠ "") (attrs : String)
    (hra : renderAttrs cfg headerAttributeKeys = .ok attrs) :
    constructHeader cfg = vendorCheck (protocolVersion ++ gw ++ attrs ++ charEol) := by
  unfold constructHeader
  rw [hgwv, hra, show gwCond (.vStr gw) = .ok true from by
    show Except.ok (decide (0 < gw.length)) = .ok true
    rw [decLength_pos hgw0]]
  rfl


/-! ## C5: the vendor attribute requirement -/

/-- Counterexample to C5 as stated: with a gateway identifier that itself
contains `vendor=`, a null vendor attribute passes the post-hoc substring
check and composition succeeds instead of failing. -/
theorem c5_gateway_vendor_counterexample :
    constructJOAPayload gwVendorConfig [] = .ok "MuniRPCv2:vendor=\n" ∧
    constructJOAPayload gwVendorConfig [] ≠ .error (.joaError "no_vendor_attribute_set") := by
  refine ⟨rfl, ?_⟩
  intro h
  rw [show constructJOAPayload gwVendorConfig [] = .ok "MuniRPCv2:vendor=\n" from rfl] at h
  exact Except.noConfusion h

/-- C5 (amended): for a configuration whose schema attributes are present and
whose non-empty gateway identifier does not itself contain the substring
`vendor=`, a null or empty vendor attribute makes composition fail with
`no_vendor_attribute_set`; and for every non-empty vendor string, header
construction succeeds and the header line contains `vendor=` followed by the
caller's value. -/
theorem c5_vendor_amended (cfg : HeaderConfig) (msgs : List Report) (gw : String)
    (hgw : cfg.gatewayIdentifier = .vStr gw) (hgw0 : gw ≠ "")
    (hbound : ∀ k ∈ headerAttributeKeys, lookupAttr cfg.attributes k ≠ .vUndefined) :
    (hasSub "vendor=".data gw.data = false →
      (lookupAttr cfg.attributes "vendor" = .vNull ∨
        lookupAttr cfg.attributes "vendor" = .vStr "") →
      constructJOAPayload cfg msgs = .error (.joaError "no_vendor_attribute_set")) ∧
    (∀ v : String, v ≠ "" → lookupAttr cfg.attributes "vendor" = .vStr v →
      ∃ hdr, constructHeader cfg = .ok hdr ∧
        hasSub ("vendor=" ++ v).data hdr.data = true) := by
  have hhash := hbound "hash" (by simp [headerAttributeKeys])
  have hsec := hbound "secret" (by simp [headerAttributeKeys])
  have htim := hbound "time" (by simp [headerAttributeKeys])
  obtain ⟨tp, htp, htpcase⟩ :
      ∃ tp, renderAttr cfg "time" = .ok tp ∧ (tp = "" ∨ tp = ",time") := by
    rcases renderAttr_time cfg htim with h | h
    · exact ⟨"", h, Or.inl rfl⟩
    · exact ⟨",time", h, Or.inr rfl⟩
  constructor
  · intro hgvw hv
    have hra := renderAttrs_eval cfg "" tp (renderAttr_vendor_empty cfg hv)
      (renderAttr_skip cfg "hash" (Or.inl rfl) hhash)
      (renderAttr_skip cfg "secret" (Or.inr rfl) hsec) htp
    rw [strEmptyAppend] at hra
    have hch := constructHeader_eval cfg gw hgw hgw0 tp hra
    have hnot : hasSub "vendor=".data (protocolVersion ++ gw ++ tp ++ charEol).data = false := by
      have hinf : ¬ ("vendor=".data <:+:
          ("MuniRPCv2:".data ++ gw.data ++ (tp.data ++ charEol.data))) := by
        apply no_vendor_occurrence
        · intro hcon
          have h2 := hasSub_iff.mpr hcon
          rw [hgvw] at h2
          exact Bool.noConfusion h2
        · rcases htpcase with rfl | rfl
          · left; rfl
          · right; rfl
      cases hfin : hasSub "vendor=".data (protocolVersion ++ gw ++ tp ++ charEol).data
      · rfl
      · exfalso
        apply hinf
        have h3 := hasSub_iff.mp hfin
        simpa [String.data_append, List.append_assoc, protocolVersion] using h3
    unfold constructJOAPayload
    rw [hch]
    unfold vendorCheck
    rw [hnot]
    rfl
  · intro v hv hvv
    have hra := renderAttrs_eval cfg (",vendor=" ++ v) tp (renderAttr_vendor_str cfg v hv hvv)
      (renderAttr_skip cfg "hash" (Or.inl rfl) hhash)
      (renderAttr_skip cfg "secret" (Or.inr rfl) hsec) htp
    have hch := constructHeader_eval cfg gw hgw hgw0 ((",vendor=" ++ v) ++ tp) hra
    have hdata : (protocolVersion ++ gw ++ ((",vendor=" ++ v) ++ tp) ++ charEol).data =
        (protocolVersion.data ++ gw.data ++ [',']) ++
          ("vendor=".data ++ (v.data ++ (tp.data ++ charEol.data))) := by
      simp only [String.data_append, List.append_assoc, List.cons_append, List.nil_append,
        show (",vendor=" : String).data = ',' :: "vendor=".data from rfl]
    have hsubA : hasSub "vendor=".data
        (protocolVersion ++ gw ++ ((",vendor=" ++ v) ++ tp) ++ charEol).data = true := by
      rw [hdata]
      exact hasSub_mid _ _ _
    have hsubB : hasSub ("vendor=" ++ v).data
        (protocolVersion ++ gw ++ ((",vendor=" ++ v) ++ tp) ++ charEol).data = true := by
      rw [String.data_append, hdata,
        ← List.append_assoc "vendor=".data v.data (tp.data ++ charEol.data)]
      exact hasSub_mid _ _ _
    refine ⟨protocolVersion ++ gw ++ ((",vendor=" ++ v) ++ tp) ++ charEol, ?_, hsubB⟩
    rw [hch]
    unfold vendorCheck
    rw [hsubA]
    rfl

/-- Witness for the amended C5 at a concrete configuration with a null
vendor attribute. -/
theorem c5_vendor_amended_witness :
    constructJOAPayload noVendorConfig [] = .error (.joaError "no_vendor_attribute_set") :=
  (c5_vendor_amended noVendorConfig [] "0.0.0.0" rfl (by decide) (by decide)).1
    (by decide) (Or.inl rfl)


/-! ## C6: hashing and the secret -/

theorem constructHeader_ok_eol {cfg : HeaderConfig} {hdr : String}
    (hh : constructHeader cfg = .ok hdr) : eolChar ∈ hdr.data := by
  unfold constructHeader at hh
  split at hh
  · exact Except.noConfusion hh
  · exact Except.noConfusion hh
  · split at hh
    · exact Except.noConfusion hh
    · unfold vendorCheck at hh
      split at hh
      · injection hh with h2
        rw [← h2, String.data_append]
        exact List.mem_append_right _ (by decide)
      · exact Except.noConfusion hh

theorem indexOfEol_lt {s : String} (h : eolChar ∈ s.data) :
    indexOfEol s < s.data.length :=
  List.findIdx_lt_length.mpr ⟨eolChar, h, by simp⟩

theorem indexOfEol_append {a b : String} (h : eolChar ∈ a.data) :
    indexOfEol (a ++ b) = indexOfEol a := by
  unfold indexOfEol
  rw [String.data_append, List.findIdx_append,
    if_pos (List.findIdx_lt_length.mpr ⟨eolChar, h, by simp⟩)]

theorem strTake_append {a b : String} {k : Nat} (hk : k ≤ a.data.length) :
    strTake (a ++ b) k = strTake a k := by
  unfold strTake
  rw [String.data_append, List.take_append_of_le_length hk]

theorem strDrop_append {a b : String} {k : Nat} (hk : k ≤ a.data.length) :
    strDrop (a ++ b) k = strDrop a k ++ b := by
  unfold strDrop
  rw [String.data_append, List.drop_append_of_le_length hk]
  rfl

theorem hexDigit_mem (nn : Nat) : MD5.hexDigit nn ∈ MD5.hexDigitChars := by
  unfold MD5.hexDigit
  rcases Nat.lt_or_ge nn 16 with h | h
  · rw [List.getD_eq_getElem MD5.hexDigitChars '0' (show nn < MD5.hexDigitChars.length by
      simpa using h)]
    exact List.getElem_mem _
  · rw [List.getD_eq_default MD5.hexDigitChars '0' (show MD5.hexDigitChars.length ≤ nn by
      simpa using h)]
    decide

theorem toHexByte_sub (g : Nat) : ∀ ch ∈ (MD5.toHexByte g).data, ch ∈ MD5.hexDigitChars := by
  intro ch hch
  rcases hch with _ | ⟨_, h2⟩
  · exact hexDigit_mem _
  · rcases h2 with _ | ⟨_, h3⟩
    · exact hexDigit_mem _
    · exact absurd h3 (List.not_mem_nil ch)

theorem B_sub (x : Nat) : ∀ ch ∈ (MD5.B x).data, ch ∈ MD5.hexDigitChars := by
  intro ch hch
  unfold MD5.B at hch
  rw [String.data_append, String.data_append, String.data_append] at hch
  rcases List.mem_append.mp hch with h | h
  · rcases List.mem_append.mp h with h | h
    · rcases List.mem_append.mp h with h | h
      · exact toHexByte_sub _ ch h
      · exact toHexByte_sub _ ch h
    · exact toHexByte_sub _ ch h
  · exact toHexByte_sub _ ch h

theorem md5out_sub (res : Nat × Nat × Nat × Nat) :
    ∀ ch ∈ (MD5.md5out res).data, ch ∈ MD5.hexDigitChars := by
  intro ch hch
  unfold MD5.md5out at hch
  rw [String.data_append, String.data_append, String.data_append] at hch
  rcases List.mem_append.mp hch with h | h
  · rcases List.mem_append.mp h with h | h
    · rcases List.mem_append.mp h with h | h
      · exact B_sub _ ch h
      · exact B_sub _ ch h
    · exact B_sub _ ch h
  · exact B_sub _ ch h

theorem md5_sub (s : String) : ∀ ch ∈ (MD5.md5 s).data, ch ∈ MD5.hexDigitChars :=
  md5out_sub _

theorem md5_len (s : String) : (MD5.md5 s).length = 32 := rfl

/-- C6: once header construction has succeeded and the hash attribute is
truthy, a null or empty secret makes composition fail with `no_secret_set`;
a non-empty secret makes it succeed, splicing `,hash=` followed by the md5
digest — a 32-character string of lowercase hex digits — into the payload
immediately before the header's first eol character. -/
theorem c6_hash_secret (cfg : HeaderConfig) (msgs : List Report) (hdr : String)
    (hh : constructHeader cfg = .ok hdr)
    (hhash : truthy (lookupAttr cfg.attributes "hash") = true) :
    ((lookupAttr cfg.attributes "secret" = .vNull ∨
        lookupAttr cfg.attributes "secret" = .vStr "") →
      constructJOAPayload cfg msgs = .error (.joaError "no_secret_set")) ∧
    (∀ sec : String, sec ≠ "" → lookupAttr cfg.attributes "secret" = .vStr sec →
      constructJOAPayload cfg msgs =
        .ok (strTake hdr (indexOfEol hdr) ++ ",hash=" ++
          MD5.md5 (sec ++ (hdr ++ arrayToString (constructMessages msgs))) ++
          (strDrop hdr (indexOfEol hdr) ++ arrayToString (constructMessages msgs))) ∧
      (MD5.md5 (sec ++ (hdr ++ arrayToString (constructMessages msgs)))).length = 32 ∧
      (∀ ch ∈ (MD5.md5 (sec ++ (hdr ++ arrayToString (constructMessages msgs)))).data,
        ch ∈ MD5.hexDigitChars) ∧
      hdr.data.getD (indexOfEol hdr) ' ' = eolChar) := by
  have heol : eolChar ∈ hdr.data := constructHeader_ok_eol hh
  have hlt : indexOfEol hdr < hdr.data.length := indexOfEol_lt heol
  constructor
  · intro hsec
    unfold constructJOAPayload
    rw [hh, hhash]
    rcases hsec with hsec | hsec <;> rw [hsec] <;> exact rfl
  · intro sec hsecne hsec
    refine ⟨?_, md5_len _, md5_sub _, ?_⟩
    · unfold constructJOAPayload
      rw [hh, hhash, hsec, show truthy (JSVal.vStr sec) = true from bne_iff_ne.mpr hsecne,
        show lengthGtZero (JSVal.vStr sec) = true from decLength_pos hsecne]
      show Except.ok (hashJOAPayload sec (hdr ++ arrayToString (constructMessages msgs))) = _
      unfold hashJOAPayload
      rw [indexOfEol_append heol]
      simp only [strTake_append (Nat.le_of_lt hlt), strDrop_append (Nat.le_of_lt hlt)]
    · rw [List.getD_eq_getElem _ ' ' hlt]
      exact beq_iff_eq.mp (@List.findIdx_getElem _ _ _ hlt)

/-- Witness for C6: the hash-enabled configuration of the repository test
suite with an empty queue. -/
theorem c6_hash_secret_witness :
    constructJOAPayload hashConfig [] =
      .ok (strTake hashHdr (indexOfEol hashHdr) ++ ",hash=" ++
        MD5.md5 ("simplesecret" ++ (hashHdr ++ arrayToString (constructMessages []))) ++
        (strDrop hashHdr (indexOfEol hashHdr) ++ arrayToString (constructMessages []))) ∧
    constructHeader hashConfig = .ok hashHdr ∧
    truthy (lookupAttr hashConfig.attributes "hash") = true :=
  ⟨((c6_hash_secret hashConfig [] hashHdr rfl rfl).2 "simplesecret" (by decide) rfl).1,
   rfl, rfl⟩

end JOA
